import Mathlib

/-!
Verification of the quicktype-mcp offline Dart model generator
(`src/main.py`) against its natural-language specification.

The embedding below translates the Python source faithfully:

* `JsonValue` models the result of `json.loads` (Python dicts preserve
  insertion order, so objects are ordered association lists).
* Python `isinstance` quirks are kept: `isinstance(True, int)` is true in
  Python, which the predicates `isPyInt` / `isPyBool` reflect.
* Exceptions (`AttributeError` from calling `.items()` on a non-dict,
  the latent `NameError` inside `get_dart_type`) are modelled with
  `Except String`; the caller `generate_model` catches them and turns
  them into `\x7b"error": ...\x7d` dictionaries exactly as the Python
  `except Exception` block does.
* The run-scoped `nested_classes` dict is threaded explicitly as an
  insertion-ordered association list (`Table`); updating an existing key
  keeps its position, as Python dicts do.
-/

/-- The apostrophe character as a string (used when assembling the emitted
Dart source text). -/
def apos : String := String.singleton (Char.ofNat 39)

/-- A parsed JSON value as produced by Python's `json.loads`: `None`, `bool`,
`int`, `float`, `str`, `list`, or (insertion-ordered) `dict`.  The generator
never reads the numeric payload of a float, so the payload just records the
literal. -/
inductive JsonValue where
  | null : JsonValue
  | bool (b : Bool) : JsonValue
  | int (n : Int) : JsonValue
  | float (lit : String) : JsonValue
  | str (s : String) : JsonValue
  | arr (items : List JsonValue) : JsonValue
  | obj (fields : List (String × JsonValue)) : JsonValue

/-- Python `type(v).__name__` for the values the generator can meet. -/
def pyTypeName : JsonValue → String
  | JsonValue.null => "NoneType"
  | JsonValue.bool _ => "bool"
  | JsonValue.int _ => "int"
  | JsonValue.float _ => "float"
  | JsonValue.str _ => "str"
  | JsonValue.arr _ => "list"
  | JsonValue.obj _ => "dict"

/-- Python `isinstance(v, str)`. -/
def isPyStr : JsonValue → Bool
  | JsonValue.str _ => true
  | _ => false

/-- Python `isinstance(v, int)`.  In Python `bool` is a subclass of `int`,
so booleans also satisfy this check. -/
def isPyInt : JsonValue → Bool
  | JsonValue.int _ => true
  | JsonValue.bool _ => true
  | _ => false

/-- Python `isinstance(v, float)`. -/
def isPyFloat : JsonValue → Bool
  | JsonValue.float _ => true
  | _ => false

/-- Python `isinstance(v, bool)`. -/
def isPyBool : JsonValue → Bool
  | JsonValue.bool _ => true
  | _ => false

/-- Python `isinstance(v, dict)`. -/
def isPyDict : JsonValue → Bool
  | JsonValue.obj _ => true
  | _ => false

/-- Python `isinstance(v, list)`. -/
def isPyList : JsonValue → Bool
  | JsonValue.arr _ => true
  | _ => false

/-- Python ASCII `str.lower()`. -/
def pyLower (s : String) : String := ⟨s.data.map Char.toLower⟩

/-- Python `str.replace("_", "")`: drop every underscore. -/
def stripUnderscores (s : String) : String :=
  ⟨s.data.filter (fun c => !(c == Char.ofNat 95))⟩

/-- Helper for `pyIn`: does the second list start with the first one. -/
def listStartsWith : List Char → List Char → Bool
  | [], _ => true
  | _ :: _, [] => false
  | a :: as, b :: bs => a == b && listStartsWith as bs

/-- Helper for `pyIn`: does the list contain the first list as a
contiguous run. -/
def listContainsRun (needle : List Char) : List Char → Bool
  | [] => listStartsWith needle []
  | c :: rest => listStartsWith needle (c :: rest) || listContainsRun needle rest

/-- Python's substring test `needle in hay`. -/
def pyIn (needle hay : String) : Bool := listContainsRun needle.data hay.data

/-- Python `str.title()` followed by nothing: uppercase the first letter of
every run of consecutive letters, lowercase the remaining letters (ASCII
version of CPython's simple word algorithm). -/
def pyTitleAux : Bool → List Char → List Char
  | _, [] => []
  | prevAlpha, c :: rest =>
    (if c.isAlpha then (if prevAlpha then c.toLower else c.toUpper) else c)
      :: pyTitleAux c.isAlpha rest

/-- Python `str.title()`. -/
def pyTitle (s : String) : String := ⟨pyTitleAux false s.data⟩

/-- Python `str.capitalize()`: first character uppercased, rest lowercased. -/
def pyCapitalize (s : String) : String :=
  match s.data with
  | [] => ""
  | c :: rest => ⟨c.toUpper :: rest.map Char.toLower⟩

/-- Python `s.rstrip("s")`: remove every trailing `s` character. -/
def rstripS (s : String) : String :=
  ⟨List.reverse (List.dropWhile (fun c => c == 's') (List.reverse s.data))⟩

/-- Python `s.endswith("s")`. -/
def endsS (s : String) : Bool :=
  match s.data.reverse with
  | [] => false
  | c :: _ => c == 's'

/-- The run-scoped `nested_classes` dictionary: class name to emitted class
source, in insertion order. -/
abbrev Table : Type := List (String × String)

/-- Python `d[k] = v` on an insertion-ordered dict: replace in place when the
key exists, append otherwise. -/
def tblInsert (tbl : Table) (k v : String) : Table :=
  match tbl with
  | [] => [(k, v)]
  | (k2, v2) :: rest =>
      if k2 = k then (k, v) :: rest else (k2, v2) :: tblInsert rest k v

/-- Lookup in the class table (Python dict `get` on unique keys). -/
def tblLookup (tbl : Table) (k : String) : Option String :=
  match tbl with
  | [] => none
  | (k2, v) :: rest => if k2 = k then some v else tblLookup rest k

/-- First-match lookup among an object's fields (`parsed_json.get(key)`). -/
def lookupField : List (String × JsonValue) → String → Option JsonValue
  | [], _ => none
  | (k, v) :: rest, key => if k = key then some v else lookupField rest key

/-- Python `"\n".join(lines)`. -/
def joinNL (lines : List String) : String := String.intercalate "\n" lines

namespace QuicktypeService

/-- Message of the `NameError` that the dead branch of `get_dart_type`
would raise: the branch interpolates the undefined name `class_name`. -/
def nameErrorMsg : String :=
  "name " ++ apos ++ "class_name" ++ apos ++ " is not defined"

/-- Message of the `AttributeError` raised by `json_data.items()` when
`_generate_dart_model` is handed a non-dict. -/
def itemsAttrMsg (v : JsonValue) : String :=
  apos ++ pyTypeName v ++ apos ++ " object has no attribute " ++ apos ++ "items" ++ apos

/-- `QuicktypeService.get_dart_type` (src/main.py:28-46).  The `list`-of-dicts
branch references the undefined name `class_name`, so reaching it raises a
`NameError`, modelled as `Except.error`. -/
def get_dart_type (value : JsonValue) (make_nullable : Bool := true) :
    Except String String :=
  match value with
  | JsonValue.bool _ => Except.ok (if make_nullable then "bool?" else "bool")
  | JsonValue.int _ => Except.ok (if make_nullable then "int?" else "int")
  | JsonValue.float _ =>
      Except.ok (if make_nullable then "double?" else "double")
  | JsonValue.str _ =>
      Except.ok (if make_nullable then "String?" else "String")
  | JsonValue.obj _ =>
      Except.ok
        (if make_nullable then "Map<String, dynamic>?" else "Map<String, dynamic>")
  | JsonValue.arr items =>
      if !items.isEmpty && items.all isPyDict then
        Except.error nameErrorMsg
      else
        Except.ok (if make_nullable then "List<dynamic>?" else "List<dynamic>")
  | JsonValue.null =>
      Except.ok (if make_nullable then "dynamic?" else "dynamic")

/-- `QuicktypeService._generate_class_name` (src/main.py:48-53). -/
def _generate_class_name (parent_name key : String) : String :=
  if parent_name = "" then stripUnderscores (pyTitle key)
  else parent_name ++ stripUnderscores (pyTitle key)

/-- Item-class naming for array-of-object fields (src/main.py:350-352):
derive from the key with all trailing `s` stripped, then a guard that
re-strips only when the derived name still ends in `s` (a no-op, kept
faithful to the source). -/
def deriveItemClassName (class_name json_key : String) : String :=
  let icn := _generate_class_name class_name (rstripS json_key)
  if !endsS icn && endsS json_key then rstripS icn else icn

/-- Element-type sampling for arrays whose first element is not a dict
(src/main.py:367-376).  The checks run in source order; since Python
booleans satisfy `isinstance(_, int)`, the final `bool` test is dead. -/
def elementType (items : List JsonValue) : String :=
  if !items.isEmpty && items.all isPyStr then "String"
  else if !items.isEmpty && items.all isPyInt then "int"
  else if !items.isEmpty && items.all isPyFloat then "double"
  else if !items.isEmpty && items.all isPyBool then "bool"
  else "dynamic"

/-- The DateTime heuristic condition (src/main.py:389-397): the key carries a
date/time hint and the string value has an ISO-8601-like shape. -/
def dtCond (json_key value : String) : Bool :=
  (pyIn "date" (pyLower json_key) || pyIn "time" (pyLower json_key) ||
   pyIn "created" (pyLower json_key) || pyIn "updated" (pyLower json_key)) &&
  ((pyIn "T" value && pyIn "Z" value) || (pyIn "-" value && pyIn ":" value))

/-- The field-declaration line `  final {field_type} {field_name};` shared
by every branch of the field loop. -/
def mkFieldDecl (ft k : String) : String :=
  "  final " ++ ft ++ " " ++ k ++ ";"

/-- The four lines a nested-object field appends (src/main.py:341-344):
field declaration, constructor parameter, fromJson entry, toJson entry.
The field type is `{nested_class_name}?`. -/
def dictFieldLines (ncn k : String) : String × String × String × String :=
  (mkFieldDecl (ncn ++ "?") k,
   "    this." ++ k ++ ",",
   "    " ++ k ++ ": json[" ++ apos ++ k ++ apos ++ "] == null ? null : " ++
     ncn ++ ".fromJson(json[" ++ apos ++ k ++ apos ++ "]),",
   "    " ++ apos ++ k ++ apos ++ ": " ++ k ++ "?.toJson(),")

/-- The four lines an array-of-objects field appends (src/main.py:362-365).
The field type is `List<{item_class_name}>?`. -/
def listObjFieldLines (icn k : String) : String × String × String × String :=
  (mkFieldDecl ("List<" ++ icn ++ ">?") k,
   "    this." ++ k ++ ",",
   "    " ++ k ++ ": json[" ++ apos ++ k ++ apos ++ "] == null ? [] : List<" ++
     icn ++ ">.from(json[" ++ apos ++ k ++ apos ++
     "]!.map((x) => x == null ? null : " ++ icn ++ ".fromJson(x))),",
   "    " ++ apos ++ k ++ apos ++ ": " ++ k ++
     " == null ? [] : List<dynamic>.from(" ++ k ++ "!.map((x) => x?.toJson())),")

/-- The four lines a primitive-element array field appends
(src/main.py:378-382).  The field type is `List<{element_type}>?`. -/
def listPrimFieldLines (et k : String) : String × String × String × String :=
  (mkFieldDecl ("List<" ++ et ++ ">?") k,
   "    this." ++ k ++ ",",
   "    " ++ k ++ ": json[" ++ apos ++ k ++ apos ++ "] == null ? [] : List<" ++
     et ++ ">.from(json[" ++ apos ++ k ++ apos ++ "]!.map((x) => x)),",
   "    " ++ apos ++ k ++ apos ++ ": " ++ k ++
     " == null ? [] : List<dynamic>.from(" ++ k ++ "!.map((x) => x)),")

/-- The four lines a DateTime-detected string field appends
(src/main.py:398-402). -/
def dateTimeFieldLines (k : String) : String × String × String × String :=
  (mkFieldDecl "DateTime?" k,
   "    this." ++ k ++ ",",
   "    " ++ k ++ ": json[" ++ apos ++ k ++ apos ++
     "] == null ? null : DateTime.parse(json[" ++ apos ++ k ++ apos ++ "]),",
   "    " ++ apos ++ k ++ apos ++ ": " ++ k ++ "?.toIso8601String(),")

/-- The four lines a regular primitive field appends (src/main.py:404-408). -/
def primFieldLines (ft k : String) : String × String × String × String :=
  (mkFieldDecl ft k,
   "    this." ++ k ++ ",",
   "    " ++ k ++ ": json[" ++ apos ++ k ++ apos ++ "],",
   "    " ++ apos ++ k ++ apos ++ ": " ++ k ++ ",")

/-- Assembling one class body (src/main.py:322-325 and 410-416): header,
field declarations, blank line, constructor block, blank line, fromJson
factory block, blank line, toJson block, closing brace. -/
def classLines (cn : String) (fls cls fjs tjs : List String) : List String :=
  ["class " ++ cn ++ " \x7b"] ++ fls ++ [""] ++
    (["  " ++ cn ++ "(\x7b"] ++ cls ++ ["  \x7d);"]) ++ [""] ++
    (["  factory " ++ cn ++ ".fromJson(Map<String, dynamic> json) => " ++
        cn ++ "("] ++ fjs ++ ["  );"]) ++ [""] ++
    (["  Map<String, dynamic> toJson() => \x7b"] ++ tjs ++ ["  \x7d;"]) ++
    ["\x7d"]

/-- Top-level document assembly (src/main.py:419-437): import line, the two
helper functions, the root class, then every nested class in class-table
insertion order, each preceded by a blank line. -/
def topWrap (cn joined : String) (tbl : Table) : String :=
  joinNL (["import " ++ apos ++ "dart:convert" ++ apos ++ ";", "",
           cn ++ " " ++ pyLower cn ++ "FromJson(String str) => " ++ cn ++
             ".fromJson(json.decode(str));", "",
           "String " ++ pyLower cn ++ "ToJson(" ++ cn ++
             " data) => json.encode(data.toJson());", "",
           joined] ++ tbl.map (fun p => "\n" ++ p.2))

/-- Class-body assembly and top-level wrapping (src/main.py:410-439),
applied to the outcome of the field loop: join the four sections into the
class body; when `parent_name` is empty additionally emit the module
preamble and every registered nested class. -/
def assembleClass (class_name parent_name : String)
    (r : (List String × List String × List String × List String) × Table) :
    String × Table :=
  match r with
  | ((fls, cls, fjs, tjs), tbl1) =>
      let joined := joinNL (classLines class_name fls cls fjs tjs)
      if parent_name = "" then (topWrap class_name joined tbl1, tbl1)
      else (joined, tbl1)

mutual

/-- The field loop of `_generate_dart_model` (src/main.py:327-408): process
the fields in insertion order, each contributing one line to each of the
four sections and possibly registering nested classes. -/
def genFields (class_name : String) (fields : List (String × JsonValue))
    (tbl : Table) :
    Except String ((List String × List String × List String × List String) × Table) :=
  match fields with
  | [] => Except.ok (([], [], [], []), tbl)
  | (k, v) :: rest =>
      match genField class_name k v tbl with
      | Except.error e => Except.error e
      | Except.ok ((l1, l2, l3, l4), tbl1) =>
          match genFields class_name rest tbl1 with
          | Except.error e => Except.error e
          | Except.ok ((m1, m2, m3, m4), tbl2) =>
              Except.ok ((l1 :: m1, l2 :: m2, l3 :: m3, l4 :: m4), tbl2)

/-- One iteration of the field loop (src/main.py:327-408): nested dict,
array of objects, primitive-element array, or primitive (with the DateTime
heuristic).  The recursive `_generate_dart_model` calls of the source on the
nested dict (or the array head) appear here with their body unfolded one
step (`genFields` + `assembleClass`); the lemma `genField_obj_spec` below
certifies that this matches calling `_generate_dart_model` itself. -/
def genField (class_name k : String) (v : JsonValue) (tbl : Table) :
    Except String ((String × String × String × String) × Table) :=
  match v with
  | JsonValue.obj f2 =>
      let ncn := _generate_class_name class_name k
      match genFields ncn f2 tbl with
      | Except.error e => Except.error e
      | Except.ok r =>
          match assembleClass ncn class_name r with
          | (code, tbl1) =>
              Except.ok (dictFieldLines ncn k, tblInsert tbl1 ncn code)
  | JsonValue.arr (JsonValue.obj f2 :: _) =>
      let icn := deriveItemClassName class_name k
      match genFields icn f2 tbl with
      | Except.error e => Except.error e
      | Except.ok r =>
          match assembleClass icn class_name r with
          | (code, tbl1) =>
              Except.ok (listObjFieldLines icn k, tblInsert tbl1 icn code)
  | JsonValue.arr items =>
      Except.ok (listPrimFieldLines (elementType items) k, tbl)
  | v =>
      match get_dart_type v true with
      | Except.error e => Except.error e
      | Except.ok ft =>
          match v with
          | JsonValue.str s =>
              if dtCond k s then Except.ok (dateTimeFieldLines k, tbl)
              else Except.ok (primFieldLines ft k, tbl)
          | _ => Except.ok (primFieldLines ft k, tbl)

end

/-- `QuicktypeService._generate_dart_model` (src/main.py:55-439).  On a dict
it walks the fields via the field loop, then assembles the class body; when
`parent_name` is empty it wraps the root class with the import/helper
preamble and all nested classes.  On any other value, Python's
`json_data.items()` raises an `AttributeError`, modelled as `Except.error`.
The class table is threaded explicitly (Python mutates the shared
`nested_classes` dict). -/
def _generate_dart_model (json_data : JsonValue) (class_name parent_name : String)
    (nested_classes : Table) : Except String (String × Table) :=
  match json_data with
  | JsonValue.obj fields =>
      match genFields class_name fields nested_classes with
      | Except.error e => Except.error e
      | Except.ok r => Except.ok (assembleClass class_name parent_name r)
  | v => Except.error (itemsAttrMsg v)

end QuicktypeService

/-- Result dictionary of `generate_model`: either the success dictionary
with `code` / `language` / `class_name` / `message` keys
(src/main.py:494-499) or the single-key error dictionary `\x7b"error": msg\x7d`. -/
inductive GenResult where
  | ok (code language class_name message : String) : GenResult
  | err (msg : String) : GenResult
deriving DecidableEq

/-- Does the result dictionary contain a `"code"` key. -/
def hasCode : GenResult → Bool
  | GenResult.ok _ _ _ _ => true
  | GenResult.err _ => false

/-- Is an `Except` computation successful. -/
def okB {α : Type} : Except String α → Bool
  | Except.ok _ => true
  | Except.error _ => false

namespace QuicktypeService

/-- The engine call the service makes for Dart
(src/main.py:478 and 480): `_generate_dart_model(parsed_json, class_name)`
with default `parent_name=''` and a fresh class table, keeping only the
returned code string. -/
def dart_engine (v : JsonValue) (class_name : String) : Except String String :=
  (_generate_dart_model v class_name "" []).map Prod.fst

/-- Message of the `AttributeError` raised when the service dispatches to a
generator method that does not exist on the class (src/main.py:481-488:
`_generate_typescript_model` and friends are never defined; the Kotlin one
is commented out). -/
def noAttrMsg (meth : String) : String :=
  "type object " ++ apos ++ "QuicktypeService" ++ apos ++
    " has no attribute " ++ apos ++ meth ++ apos

/-- The `{error: Language ... not supported}` message of src/main.py:490. -/
def unsupportedMsg (language : String) : String :=
  "Language " ++ apos ++ language ++ apos ++ " is not supported in offline mode"

/-- The "complex nested structure" detection (src/main.py:476):
the parsed value is a dict with a key `"data"` whose value is a dict. -/
def isComplexNested : JsonValue → Bool
  | JsonValue.obj fields =>
      match lookupField fields "data" with
      | some (JsonValue.obj _) => true
      | _ => false
  | _ => false

/-- Wrapping one engine run into the result dictionary
(src/main.py:492-503): success yields the four-key dictionary, an exception
is caught and reported as `Failed to generate model: ...`. -/
def runEngine (engine : JsonValue → String → Except String String)
    (v : JsonValue) (class_name language : String) : GenResult :=
  match engine v class_name with
  | Except.ok code =>
      GenResult.ok code language class_name
        (pyCapitalize language ++ " model generated successfully")
  | Except.error e => GenResult.err ("Failed to generate model: " ++ e)

/-- The language dispatch of `generate_model` (src/main.py:474-503), generic
in the Dart engine.  For Dart the detection branch chooses between two
identical calls; the four other named languages dispatch to missing methods
(`AttributeError`, caught by the enclosing `except`); anything else gets the
unsupported-language error. -/
def dispatch (engine : JsonValue → String → Except String String)
    (v : JsonValue) (class_name language : String) : GenResult :=
  if pyLower language = "dart" then
    if isComplexNested v then runEngine engine v class_name language
    else runEngine engine v class_name language
  else if pyLower language = "typescript" then
    GenResult.err ("Failed to generate model: " ++ noAttrMsg "_generate_typescript_model")
  else if pyLower language = "kotlin" then
    GenResult.err ("Failed to generate model: " ++ noAttrMsg "_generate_kotlin_model")
  else if pyLower language = "swift" then
    GenResult.err ("Failed to generate model: " ++ noAttrMsg "_generate_swift_model")
  else if pyLower language = "python" then
    GenResult.err ("Failed to generate model: " ++ noAttrMsg "_generate_python_model")
  else GenResult.err (unsupportedMsg language)

/-- `QuicktypeService.generate_model` (src/main.py:449-503) on a string
input, generic in the engine used for Dart.  `loads` stands for the
behaviour of Python's `json.loads` on the given text: `Except.error detail`
models a raised `json.JSONDecodeError` with message `detail`. -/
def generate_model_with (loads : String → Except String JsonValue)
    (engine : JsonValue → String → Except String String)
    (json_input class_name language : String) : GenResult :=
  match loads json_input with
  | Except.error e => GenResult.err ("Invalid JSON: " ++ e)
  | Except.ok v => dispatch engine v class_name language

/-- `QuicktypeService.generate_model` (src/main.py:449-503) with the real
Dart engine. -/
def generate_model (loads : String → Except String JsonValue)
    (json_input class_name language : String) : GenResult :=
  generate_model_with loads dart_engine json_input class_name language

/-- `QuicktypeService.generate_model` invoked on an already-parsed value, as
the tool wrapper does (src/main.py:465-468): a string value re-enters
`json.loads`, everything else is used as-is. -/
def generate_model_on_value (loads : String → Except String JsonValue)
    (v : JsonValue) (class_name language : String) : GenResult :=
  match v with
  | JsonValue.str s => generate_model loads s class_name language
  | v => dispatch dart_engine v class_name language

/-- `dispatch` with the "complex nested structure" check removed: the single
generation call the specification says both branches amount to. -/
def dispatchNoDetection (engine : JsonValue → String → Except String String)
    (v : JsonValue) (class_name language : String) : GenResult :=
  if pyLower language = "dart" then runEngine engine v class_name language
  else if pyLower language = "typescript" then
    GenResult.err ("Failed to generate model: " ++ noAttrMsg "_generate_typescript_model")
  else if pyLower language = "kotlin" then
    GenResult.err ("Failed to generate model: " ++ noAttrMsg "_generate_kotlin_model")
  else if pyLower language = "swift" then
    GenResult.err ("Failed to generate model: " ++ noAttrMsg "_generate_swift_model")
  else if pyLower language = "python" then
    GenResult.err ("Failed to generate model: " ++ noAttrMsg "_generate_python_model")
  else GenResult.err (unsupportedMsg language)

end QuicktypeService

namespace MCPTools

set_option linter.unusedVariables false in
/-- The `generate_model` MCP tool (src/main.py:593-632): parse the input
text (a parse failure is caught by the surrounding `except` and reported as
`Error generating model: ...`), compute the unused `is_nested` flag, and
forward the parsed value to the service. -/
def generate_model (loads : String → Except String JsonValue)
    (json_input class_name language : String) : GenResult :=
  match loads json_input with
  | Except.error e => GenResult.err ("Error generating model: " ++ e)
  | Except.ok v =>
      let is_nested := QuicktypeService.isComplexNested v
      QuicktypeService.generate_model_on_value loads v class_name language

/-- The tool wrapper with every "nested structure" detection removed, on
both the tool and the service side. -/
def generate_model_noDetection (loads : String → Except String JsonValue)
    (json_input class_name language : String) : GenResult :=
  match loads json_input with
  | Except.error e => GenResult.err ("Error generating model: " ++ e)
  | Except.ok v =>
      match v with
      | JsonValue.str s =>
          (match loads s with
           | Except.error e => GenResult.err ("Invalid JSON: " ++ e)
           | Except.ok v2 =>
               QuicktypeService.dispatchNoDetection QuicktypeService.dart_engine
                 v2 class_name language)
      | v => QuicktypeService.dispatchNoDetection QuicktypeService.dart_engine
               v class_name language

end MCPTools

namespace QuicktypeService

/-- The nested-dict branch of the field loop is one unfolding of
`_generate_dart_model` on the nested value: registering
`nested_classes[nested_class_name] = _generate_dart_model(value, ...)`
(src/main.py:336-338). -/
theorem genField_obj_spec (cn k : String) (f2 : List (String × JsonValue))
    (tbl : Table) :
    genField cn k (JsonValue.obj f2) tbl =
      match _generate_dart_model (JsonValue.obj f2) (_generate_class_name cn k)
          cn tbl with
      | Except.error e => Except.error e
      | Except.ok (code, tbl1) =>
          Except.ok (dictFieldLines (_generate_class_name cn k) k,
            tblInsert tbl1 (_generate_class_name cn k) code) := by
  have h : genField cn k (JsonValue.obj f2) tbl =
      match genFields (_generate_class_name cn k) f2 tbl with
      | Except.error e => Except.error e
      | Except.ok r =>
          match assembleClass (_generate_class_name cn k) cn r with
          | (code, tbl1) =>
              Except.ok (dictFieldLines (_generate_class_name cn k) k,
                tblInsert tbl1 (_generate_class_name cn k) code) := rfl
  rw [h]
  unfold _generate_dart_model
  cases hg : genFields (_generate_class_name cn k) f2 tbl with
  | error e => simp [hg]
  | ok r => simp [hg]

/-- The array-of-objects branch of the field loop is one unfolding of
`_generate_dart_model` on the first array element (src/main.py:357-359). -/
theorem genField_arrObj_spec (cn k : String) (f2 : List (String × JsonValue))
    (t : List JsonValue) (tbl : Table) :
    genField cn k (JsonValue.arr (JsonValue.obj f2 :: t)) tbl =
      match _generate_dart_model (JsonValue.obj f2) (deriveItemClassName cn k)
          cn tbl with
      | Except.error e => Except.error e
      | Except.ok (code, tbl1) =>
          Except.ok (listObjFieldLines (deriveItemClassName cn k) k,
            tblInsert tbl1 (deriveItemClassName cn k) code) := by
  have h : genField cn k (JsonValue.arr (JsonValue.obj f2 :: t)) tbl =
      match genFields (deriveItemClassName cn k) f2 tbl with
      | Except.error e => Except.error e
      | Except.ok r =>
          match assembleClass (deriveItemClassName cn k) cn r with
          | (code, tbl1) =>
              Except.ok (listObjFieldLines (deriveItemClassName cn k) k,
                tblInsert tbl1 (deriveItemClassName cn k) code) := rfl
  rw [h]
  unfold _generate_dart_model
  cases hg : genFields (deriveItemClassName cn k) f2 tbl with
  | error e => simp [hg]
  | ok r => simp [hg]

/-- Strong-induction workhorse: the field loop and the per-field step never
produce an exception, whatever the fields, class name, or class table. -/
theorem genOk_strong : ∀ (n : Nat),
    (∀ (fields : List (String × JsonValue)) (cn : String) (tbl : Table),
        sizeOf fields ≤ n → okB (genFields cn fields tbl) = true)
    ∧ (∀ (v : JsonValue) (cn k : String) (tbl : Table),
        sizeOf v ≤ n → okB (genField cn k v tbl) = true) := by
  intro n
  induction n using Nat.strong_induction_on with
  | _ n ih =>
    constructor
    · intro fields cn tbl hle
      match fields with
      | [] => simp [genFields, okB]
      | (k, v) :: rest =>
        have hsz : sizeOf v < n ∧ sizeOf rest < n := by
          simp only [List.cons.sizeOf_spec, Prod.mk.sizeOf_spec] at hle
          omega
        have h1 := (ih (sizeOf v) hsz.1).2 v cn k tbl (le_refl _)
        cases hf : genField cn k v tbl with
        | error e => rw [hf] at h1; simp [okB] at h1
        | ok p =>
          obtain ⟨⟨l1, l2, l3, l4⟩, tbl1⟩ := p
          have h2 := (ih (sizeOf rest) hsz.2).1 rest cn tbl1 (le_refl _)
          cases hg : genFields cn rest tbl1 with
          | error e => rw [hg] at h2; simp [okB] at h2
          | ok q =>
            obtain ⟨⟨m1, m2, m3, m4⟩, tbl2⟩ := q
            simp [genFields, hf, hg, okB]
    · intro v cn k tbl hle
      match v with
      | JsonValue.obj f2 =>
        have hsz : sizeOf f2 < n := by
          simp only [JsonValue.obj.sizeOf_spec] at hle
          omega
        have h1 := (ih (sizeOf f2) hsz).1 f2 (_generate_class_name cn k) tbl
          (le_refl _)
        cases hg : genFields (_generate_class_name cn k) f2 tbl with
        | error e => rw [hg] at h1; simp [okB] at h1
        | ok r => simp [genField, hg, okB]
      | JsonValue.arr (JsonValue.obj f2 :: t) =>
        have hsz : sizeOf f2 < n := by
          simp only [JsonValue.arr.sizeOf_spec, List.cons.sizeOf_spec,
            JsonValue.obj.sizeOf_spec] at hle
          omega
        have h1 := (ih (sizeOf f2) hsz).1 f2 (deriveItemClassName cn k) tbl
          (le_refl _)
        cases hg : genFields (deriveItemClassName cn k) f2 tbl with
        | error e => rw [hg] at h1; simp [okB] at h1
        | ok r => simp [genField, hg, okB]
      | JsonValue.arr [] => simp [genField, okB]
      | JsonValue.arr (JsonValue.null :: t) => simp [genField, okB]
      | JsonValue.arr (JsonValue.bool b :: t) => simp [genField, okB]
      | JsonValue.arr (JsonValue.int m :: t) => simp [genField, okB]
      | JsonValue.arr (JsonValue.float x :: t) => simp [genField, okB]
      | JsonValue.arr (JsonValue.str s2 :: t) => simp [genField, okB]
      | JsonValue.arr (JsonValue.arr a :: t) => simp [genField, okB]
      | JsonValue.null => simp [genField, get_dart_type, okB]
      | JsonValue.bool b => simp [genField, get_dart_type, okB]
      | JsonValue.int m => simp [genField, get_dart_type, okB]
      | JsonValue.float x => simp [genField, get_dart_type, okB]
      | JsonValue.str s2 =>
        by_cases hdt : dtCond k s2 = true
        · simp [genField, get_dart_type, hdt, okB]
        · simp [genField, get_dart_type, hdt, okB]

/-- The field loop never raises. -/
theorem genFields_ok (cn : String) (fields : List (String × JsonValue))
    (tbl : Table) : okB (genFields cn fields tbl) = true :=
  (genOk_strong (sizeOf fields)).1 fields cn tbl (le_refl _)

/-- A single field-loop step never raises. -/
theorem genField_ok (cn k : String) (v : JsonValue) (tbl : Table) :
    okB (genField cn k v tbl) = true :=
  (genOk_strong (sizeOf v)).2 v cn k tbl (le_refl _)

/-- `_generate_dart_model` never raises on a dict argument. -/
theorem generate_dart_model_obj_ok (fields : List (String × JsonValue))
    (cn pn : String) (tbl : Table) :
    okB (_generate_dart_model (JsonValue.obj fields) cn pn tbl) = true := by
  have h := genFields_ok cn fields tbl
  unfold _generate_dart_model
  cases hg : genFields cn fields tbl with
  | error e => rw [hg] at h; simp [okB] at h
  | ok r => simp [hg, okB]

/-- The service-level Dart engine call never raises on a dict. -/
theorem dart_engine_obj_ok (fields : List (String × JsonValue)) (cn : String) :
    okB (dart_engine (JsonValue.obj fields) cn) = true := by
  have h := generate_dart_model_obj_ok fields cn "" []
  unfold dart_engine
  cases hg : _generate_dart_model (JsonValue.obj fields) cn "" [] with
  | error e => rw [hg] at h; simp [okB] at h
  | ok r => simp [hg, okB, Except.map]

end QuicktypeService

/-- A string that does not end in `s` is unchanged by `rstrip("s")`. -/
theorem rstripS_of_not_endsS (s : String) (h : endsS s = false) :
    rstripS s = s := by
  cases s with
  | mk data =>
    unfold rstripS
    unfold endsS at h
    cases hrev : data.reverse with
    | nil =>
      have hd : data = [] := by
        have := congrArg List.reverse hrev
        simpa using this
      simp [hd]
    | cons c rest =>
      rw [hrev] at h
      simp only at h
      have hdata : data = (c :: rest).reverse := by
        have := congrArg List.reverse hrev
        simpa using this
      simp [List.dropWhile_cons, h, ← hdata]

/-- The guard in the item-class derivation is a no-op: the derived item
class name is exactly `_generate_class_name` applied to the key with all
trailing `s` stripped. -/
theorem deriveItemClassName_eq (cn k : String) :
    QuicktypeService.deriveItemClassName cn k =
      QuicktypeService._generate_class_name cn (rstripS k) := by
  unfold QuicktypeService.deriveItemClassName
  by_cases hc : (!endsS (QuicktypeService._generate_class_name cn (rstripS k)) &&
      endsS k) = true
  · simp only [hc, if_true]
    have h1 : endsS (QuicktypeService._generate_class_name cn (rstripS k)) = false := by
      have h2 := (Bool.and_eq_true _ _).mp hc
      simpa using h2.1
    exact rstripS_of_not_endsS _ h1
  · simp only [Bool.not_eq_true] at hc
    simp [hc]

/-- After a Python dict assignment the key maps to the assigned value. -/
theorem tblLookup_tblInsert (tbl : Table) (k v : String) :
    tblLookup (tblInsert tbl k v) k = some v := by
  induction tbl with
  | nil => simp [tblInsert, tblLookup]
  | cons p rest ih =>
    obtain ⟨k2, v2⟩ := p
    by_cases h : k2 = k
    · simp [tblInsert, tblLookup, h]
    · simp [tblInsert, tblLookup, h, ih]

namespace QuicktypeService

/-- Destructured form of `genFields_ok`. -/
theorem genFields_exists (cn : String) (fields : List (String × JsonValue))
    (tbl : Table) : ∃ r, genFields cn fields tbl = Except.ok r := by
  have h := genFields_ok cn fields tbl
  cases hg : genFields cn fields tbl with
  | error e => rw [hg] at h; simp [okB] at h
  | ok r => exact ⟨r, rfl⟩

/-- Destructured form of `generate_dart_model_obj_ok`. -/
theorem generate_dart_model_obj_exists (fields : List (String × JsonValue))
    (cn pn : String) (tbl : Table) :
    ∃ code tbl1,
      _generate_dart_model (JsonValue.obj fields) cn pn tbl =
        Except.ok (code, tbl1) := by
  have h := generate_dart_model_obj_ok fields cn pn tbl
  cases hg : _generate_dart_model (JsonValue.obj fields) cn pn tbl with
  | error e => rw [hg] at h; simp [okB] at h
  | ok r => exact ⟨r.1, r.2, rfl⟩

end QuicktypeService

/-- Does the string end with the Dart nullability marker. -/
def endsQ (s : String) : Bool :=
  match s.data.reverse with
  | [] => false
  | c :: _ => c == Char.ofNat 63

/-- Appending a string that ends in the nullability marker yields a string
that ends in the nullability marker. -/
theorem endsQ_append (s t : String) (h : endsQ t = true) :
    endsQ (s ++ t) = true := by
  cases s with
  | mk ds =>
    cases t with
    | mk dt =>
      unfold endsQ at h ⊢
      show (match (ds ++ dt).reverse with
            | [] => false
            | c :: _ => c == Char.ofNat 63) = true
      rw [List.reverse_append]
      cases hrev : dt.reverse with
      | nil => rw [hrev] at h; simp at h
      | cons c rest => rw [hrev] at h; simpa using h

/-- C5: for every input string that does not parse as strict JSON,
`generate_model` returns `\x7b"error": "Invalid JSON: <detail>"\x7d` with the
parser's detail message, without invoking the model-generation engine (the
result is the same for every engine) and without any partial code output. -/
theorem C5_invalid_json_error (loads : String → Except String JsonValue)
    (engine : JsonValue → String → Except String String)
    (json_input detail class_name language : String)
    (h : loads json_input = Except.error detail) :
    QuicktypeService.generate_model_with loads engine json_input class_name
        language = GenResult.err ("Invalid JSON: " ++ detail) ∧
    QuicktypeService.generate_model loads json_input class_name language =
        GenResult.err ("Invalid JSON: " ++ detail) ∧
    hasCode (QuicktypeService.generate_model loads json_input class_name
        language) = false := by
  unfold QuicktypeService.generate_model QuicktypeService.generate_model_with
  rw [h]
  exact ⟨rfl, rfl, rfl⟩

/-- Witness for C5 at a concrete failing parse. -/
theorem C5_invalid_json_error_witness :
    QuicktypeService.generate_model
        (fun _ => Except.error "Expecting value: line 1 column 1 (char 0)")
        "not json" "Model" "dart" =
      GenResult.err ("Invalid JSON: " ++
        "Expecting value: line 1 column 1 (char 0)") :=
  (C5_invalid_json_error
    (fun _ => Except.error "Expecting value: line 1 column 1 (char 0)")
    QuicktypeService.dart_engine "not json"
    "Expecting value: line 1 column 1 (char 0)" "Model" "dart" rfl).2.1

/-- C2 counterexample: with language `"typescript"` (lower-cased value not
`"dart"`) and valid JSON `\x7b\x7d`, the service does not return the claimed
unsupported-language dictionary; the dispatch reaches the missing
`_generate_typescript_model` attribute and the caught `AttributeError`
yields a `Failed to generate model` message instead. -/
theorem C2_counterexample :
    QuicktypeService.generate_model (fun _ => Except.ok (JsonValue.obj []))
        "\x7b\x7d" "Model" "typescript" =
      GenResult.err ("Failed to generate model: " ++
        QuicktypeService.noAttrMsg "_generate_typescript_model") ∧
    QuicktypeService.generate_model (fun _ => Except.ok (JsonValue.obj []))
        "\x7b\x7d" "Model" "typescript" ≠
      GenResult.err (QuicktypeService.unsupportedMsg "typescript") := by
  exact ⟨rfl, by decide⟩

/-- C2 amended: for every language whose lower-cased value is not one of
`dart`, `typescript`, `kotlin`, `swift`, `python`, `generate_model` with
valid JSON returns exactly
`\x7b"error": "Language '<language>' is not supported in offline mode"\x7d`
and no `code` key.  (For the four phantom languages the dispatch instead
trips an `AttributeError` on a missing generator method.) -/
theorem C2_unsupported_language (loads : String → Except String JsonValue)
    (v : JsonValue) (json_input class_name language : String)
    (hok : loads json_input = Except.ok v)
    (h : pyLower language ∉ ["dart", "typescript", "kotlin", "swift", "python"]) :
    QuicktypeService.generate_model loads json_input class_name language =
      GenResult.err (QuicktypeService.unsupportedMsg language) ∧
    hasCode (QuicktypeService.generate_model loads json_input class_name
      language) = false := by
  have h1 : ¬(pyLower language = "dart") := fun he => h (by simp [he])
  have h2 : ¬(pyLower language = "typescript") := fun he => h (by simp [he])
  have h3 : ¬(pyLower language = "kotlin") := fun he => h (by simp [he])
  have h4 : ¬(pyLower language = "swift") := fun he => h (by simp [he])
  have h5 : ¬(pyLower language = "python") := fun he => h (by simp [he])
  unfold QuicktypeService.generate_model QuicktypeService.generate_model_with
  rw [hok]
  unfold QuicktypeService.dispatch
  simp [h1, h2, h3, h4, h5, hasCode]

/-- Witness for C2 at the concrete language `"ruby"`. -/
theorem C2_unsupported_language_witness :
    QuicktypeService.generate_model (fun _ => Except.ok (JsonValue.obj []))
        "\x7b\x7d" "Model" "ruby" =
      GenResult.err (QuicktypeService.unsupportedMsg "ruby") ∧
    hasCode (QuicktypeService.generate_model
        (fun _ => Except.ok (JsonValue.obj [])) "\x7b\x7d" "Model" "ruby") =
      false :=
  C2_unsupported_language (fun _ => Except.ok (JsonValue.obj []))
    (JsonValue.obj []) "\x7b\x7d" "Model" "ruby" rfl (by decide)

/-- C1 counterexample: the syntactically valid JSON document `[]` (top-level
array) makes `generate_model` with language dart return an error dictionary
with no `code` key — the engine's `json_data.items()` raises an
`AttributeError` that the top-level handler converts into
`Failed to generate model: ...`. -/
theorem C1_counterexample :
    QuicktypeService.generate_model (fun _ => Except.ok (JsonValue.arr []))
        "[]" "Model" "dart" =
      GenResult.err ("Failed to generate model: " ++
        QuicktypeService.itemsAttrMsg (JsonValue.arr [])) ∧
    hasCode (QuicktypeService.generate_model
        (fun _ => Except.ok (JsonValue.arr [])) "[]" "Model" "dart") =
      false := by
  exact ⟨rfl, rfl⟩

/-- C1 amended: for every syntactically valid JSON document whose top level
is an object, `generate_model` with language dart returns a result
dictionary containing a `code` key (and, the model being a total function,
never throws; non-object roots yield an error dictionary instead, as the
counterexample shows). -/
theorem C1_totality_on_objects (loads : String → Except String JsonValue)
    (json_input class_name : String) (fields : List (String × JsonValue))
    (h : loads json_input = Except.ok (JsonValue.obj fields)) :
    hasCode (QuicktypeService.generate_model loads json_input class_name
      "dart") = true := by
  unfold QuicktypeService.generate_model QuicktypeService.generate_model_with
  rw [h]
  obtain ⟨code, tbl1, he⟩ :=
    QuicktypeService.generate_dart_model_obj_exists fields class_name "" []
  have hd : pyLower "dart" = "dart" := rfl
  simp [QuicktypeService.dispatch, hd, QuicktypeService.runEngine,
    QuicktypeService.dart_engine, he, Except.map, hasCode, ite_self]

/-- Witness for C1 at the concrete document `\x7b\x7d`. -/
theorem C1_totality_on_objects_witness :
    hasCode (QuicktypeService.generate_model
      (fun _ => Except.ok (JsonValue.obj [])) "\x7b\x7d" "Model" "dart") =
      true :=
  C1_totality_on_objects (fun _ => Except.ok (JsonValue.obj [])) "\x7b\x7d"
    "Model" [] rfl

/-- C7: the Dart generation engine is deterministic — two calls with
identical parsed JSON input and identical root class name produce
byte-identical output.  The embedding makes this structural: the engine is
a pure function of the parsed value and the class name, and the class table
is an insertion-ordered list, so no unordered iteration or randomness can
influence the output. -/
theorem C7_determinism (j1 j2 : JsonValue) (cn1 cn2 : String)
    (hj : j1 = j2) (hc : cn1 = cn2) :
    QuicktypeService._generate_dart_model j1 cn1 "" [] =
      QuicktypeService._generate_dart_model j2 cn2 "" [] := by
  rw [hj, hc]

/-- Witness for C7 at a concrete input. -/
theorem C7_determinism_witness :
    QuicktypeService._generate_dart_model
        (JsonValue.obj [("id", JsonValue.int 1)]) "Model" "" [] =
      QuicktypeService._generate_dart_model
        (JsonValue.obj [("id", JsonValue.int 1)]) "Model" "" [] :=
  C7_determinism (JsonValue.obj [("id", JsonValue.int 1)])
    (JsonValue.obj [("id", JsonValue.int 1)]) "Model" "Model" rfl rfl

/-- C10: during a run of the Dart engine, `get_dart_type` is only invoked
on values that are neither dicts nor lists, and on such values it always
succeeds, so the `NameError` lurking in its list-of-dicts branch can never
surface: the engine is total (exception-free) on every dict input, whatever
the class name, parent name, and class table. -/
theorem C10_name_error_unreachable :
    (∀ v : JsonValue, isPyDict v = false → isPyList v = false →
        okB (QuicktypeService.get_dart_type v true) = true) ∧
    (∀ (fields : List (String × JsonValue)) (cn pn : String) (tbl : Table),
        okB (QuicktypeService._generate_dart_model (JsonValue.obj fields)
          cn pn tbl) = true) := by
  constructor
  · intro v h1 h2
    cases v <;> simp_all [isPyDict, isPyList, QuicktypeService.get_dart_type, okB]
  · exact QuicktypeService.generate_dart_model_obj_ok

/-- Witness for C10 at concrete inputs. -/
theorem C10_name_error_unreachable_witness :
    okB (QuicktypeService.get_dart_type JsonValue.null true) = true ∧
    okB (QuicktypeService._generate_dart_model (JsonValue.obj [])
      "Model" "" []) = true :=
  ⟨C10_name_error_unreachable.1 JsonValue.null rfl rfl,
   C10_name_error_unreachable.2 [] "Model" "" []⟩

/-- C3 (documenting the code bug): the all-boolean array `[true, false]`
under key `"flags"` is emitted as `List<int>?`, not `List<bool>?` — in
Python `isinstance(True, int)` holds, so the `int` check of the element
sampler fires before the (therefore dead) `bool` check. -/
theorem C3_bool_array_is_int :
    QuicktypeService.elementType [JsonValue.bool true, JsonValue.bool false]
      = "int" ∧
    QuicktypeService.genField "Model" "flags"
        (JsonValue.arr [JsonValue.bool true, JsonValue.bool false]) [] =
      Except.ok (QuicktypeService.listPrimFieldLines "int" "flags", []) ∧
    (QuicktypeService.listPrimFieldLines "int" "flags").1 =
      QuicktypeService.mkFieldDecl "List<int>?" "flags" := by
  exact ⟨rfl, rfl, rfl⟩

/-- C4 counterexample: for the array-of-objects key `"address"` under root
class `Model`, the code derives the item class `ModelAddre` (Python's
`rstrip("s")` removes *every* trailing `s`), while stripping exactly one
trailing `s` as claimed would give `ModelAddres`. -/
theorem C4_counterexample :
    QuicktypeService.deriveItemClassName "Model" "address" = "ModelAddre" ∧
    QuicktypeService._generate_class_name "Model" "addres" = "ModelAddres" ∧
    ("ModelAddre" : String) ≠ "ModelAddres" := by
  exact ⟨rfl, rfl, by decide⟩

/-- C4 amended: for every object field whose value is a non-empty array
whose first element is an object, the field resolves to an optional list
`List<I>?` of an item class `I` derived by stripping *all* trailing
pluralizing `s` characters from the field key before name derivation
(title-casing, underscore removal, prefixing with the owning class name),
and `I` is registered in the class table. -/
theorem C4_item_class_naming (cn k : String)
    (f2 : List (String × JsonValue)) (t : List JsonValue) (tbl : Table) :
    ∃ l2 l3 l4 code tbl2,
      QuicktypeService.genField cn k (JsonValue.arr (JsonValue.obj f2 :: t))
          tbl =
        Except.ok ((QuicktypeService.mkFieldDecl
            ("List<" ++ QuicktypeService._generate_class_name cn (rstripS k)
              ++ ">?") k, l2, l3, l4), tbl2) ∧
      tblLookup tbl2 (QuicktypeService._generate_class_name cn (rstripS k)) =
        some code := by
  have hspec := QuicktypeService.genField_arrObj_spec cn k f2 t tbl
  rw [deriveItemClassName_eq] at hspec
  obtain ⟨code, tbl1, he⟩ := QuicktypeService.generate_dart_model_obj_exists
    f2 (QuicktypeService._generate_class_name cn (rstripS k)) cn tbl
  rw [he] at hspec
  refine ⟨(QuicktypeService.listObjFieldLines
      (QuicktypeService._generate_class_name cn (rstripS k)) k).2.1,
    (QuicktypeService.listObjFieldLines
      (QuicktypeService._generate_class_name cn (rstripS k)) k).2.2.1,
    (QuicktypeService.listObjFieldLines
      (QuicktypeService._generate_class_name cn (rstripS k)) k).2.2.2,
    code,
    tblInsert tbl1 (QuicktypeService._generate_class_name cn (rstripS k)) code,
    ?_, ?_⟩
  · rw [hspec]; rfl
  · exact tblLookup_tblInsert tbl1 _ code


/-- First emitted line (the field declaration) of a field-loop result. -/
def firstLineOf :
    Except String ((String × String × String × String) × Table) → String
  | Except.ok ((a, _, _, _), _) => a
  | Except.error _ => ""

/-- C6: every field declaration emitted by the Dart generator is declared
nullable — the declaration line is `  final <type> <name>;` with a type
annotation that carries the optional marker `?`, whatever the sample value
was (`null` included; an absent field emits no declaration at all). -/
theorem C6_nullability (cn k : String) (v : JsonValue) (tbl : Table)
    (l1 l2 l3 l4 : String) (tbl2 : Table)
    (h : QuicktypeService.genField cn k v tbl =
      Except.ok ((l1, l2, l3, l4), tbl2)) :
    ∃ ft, l1 = QuicktypeService.mkFieldDecl ft k ∧ endsQ ft = true := by
  have hl := congrArg firstLineOf h
  cases v with
  | obj f2 =>
    obtain ⟨code, tbl1, he⟩ := QuicktypeService.generate_dart_model_obj_exists
      f2 (QuicktypeService._generate_class_name cn k) cn tbl
    have hspec := QuicktypeService.genField_obj_spec cn k f2 tbl
    rw [he] at hspec
    rw [hspec] at hl
    simp only [firstLineOf, QuicktypeService.dictFieldLines] at hl
    exact ⟨QuicktypeService._generate_class_name cn k ++ "?", hl.symm,
      endsQ_append _ _ rfl⟩
  | arr items =>
    match items with
    | JsonValue.obj f2 :: t =>
      obtain ⟨code, tbl1, he⟩ := QuicktypeService.generate_dart_model_obj_exists
        f2 (QuicktypeService.deriveItemClassName cn k) cn tbl
      have hspec := QuicktypeService.genField_arrObj_spec cn k f2 t tbl
      rw [he] at hspec
      rw [hspec] at hl
      simp only [firstLineOf, QuicktypeService.listObjFieldLines] at hl
      exact ⟨"List<" ++ QuicktypeService.deriveItemClassName cn k ++ ">?",
        hl.symm, endsQ_append _ _ rfl⟩
    | [] =>
      simp only [QuicktypeService.genField, firstLineOf,
        QuicktypeService.listPrimFieldLines] at hl
      exact ⟨"List<" ++ QuicktypeService.elementType [] ++ ">?", hl.symm,
        endsQ_append _ _ rfl⟩
    | JsonValue.null :: t =>
      simp only [QuicktypeService.genField, firstLineOf,
        QuicktypeService.listPrimFieldLines] at hl
      exact ⟨"List<" ++ QuicktypeService.elementType (JsonValue.null :: t) ++
        ">?", hl.symm, endsQ_append _ _ rfl⟩
    | JsonValue.bool b :: t =>
      simp only [QuicktypeService.genField, firstLineOf,
        QuicktypeService.listPrimFieldLines] at hl
      exact ⟨"List<" ++ QuicktypeService.elementType (JsonValue.bool b :: t) ++
        ">?", hl.symm, endsQ_append _ _ rfl⟩
    | JsonValue.int n :: t =>
      simp only [QuicktypeService.genField, firstLineOf,
        QuicktypeService.listPrimFieldLines] at hl
      exact ⟨"List<" ++ QuicktypeService.elementType (JsonValue.int n :: t) ++
        ">?", hl.symm, endsQ_append _ _ rfl⟩
    | JsonValue.float x :: t =>
      simp only [QuicktypeService.genField, firstLineOf,
        QuicktypeService.listPrimFieldLines] at hl
      exact ⟨"List<" ++ QuicktypeService.elementType (JsonValue.float x :: t) ++
        ">?", hl.symm, endsQ_append _ _ rfl⟩
    | JsonValue.str s2 :: t =>
      simp only [QuicktypeService.genField, firstLineOf,
        QuicktypeService.listPrimFieldLines] at hl
      exact ⟨"List<" ++ QuicktypeService.elementType (JsonValue.str s2 :: t) ++
        ">?", hl.symm, endsQ_append _ _ rfl⟩
    | JsonValue.arr a :: t =>
      simp only [QuicktypeService.genField, firstLineOf,
        QuicktypeService.listPrimFieldLines] at hl
      exact ⟨"List<" ++ QuicktypeService.elementType (JsonValue.arr a :: t) ++
        ">?", hl.symm, endsQ_append _ _ rfl⟩
  | null =>
    simp only [QuicktypeService.genField, QuicktypeService.get_dart_type,
      firstLineOf, QuicktypeService.primFieldLines] at hl
    exact ⟨"dynamic?", hl.symm, rfl⟩
  | bool b =>
    simp only [QuicktypeService.genField, QuicktypeService.get_dart_type,
      firstLineOf, QuicktypeService.primFieldLines] at hl
    exact ⟨"bool?", hl.symm, rfl⟩
  | int n =>
    simp only [QuicktypeService.genField, QuicktypeService.get_dart_type,
      firstLineOf, QuicktypeService.primFieldLines] at hl
    exact ⟨"int?", hl.symm, rfl⟩
  | float x =>
    simp only [QuicktypeService.genField, QuicktypeService.get_dart_type,
      firstLineOf, QuicktypeService.primFieldLines] at hl
    exact ⟨"double?", hl.symm, rfl⟩
  | str s =>
    by_cases hdt : QuicktypeService.dtCond k s = true
    · simp only [QuicktypeService.genField, QuicktypeService.get_dart_type,
        hdt, if_true, firstLineOf, QuicktypeService.dateTimeFieldLines] at hl
      exact ⟨"DateTime?", hl.symm, rfl⟩
    · simp only [Bool.not_eq_true] at hdt
      simp only [QuicktypeService.genField, QuicktypeService.get_dart_type,
        hdt, Bool.false_eq_true, if_false, firstLineOf,
        QuicktypeService.primFieldLines] at hl
      exact ⟨"String?", hl.symm, rfl⟩

/-- Witness for C6 at the concrete null-valued field `x`. -/
theorem C6_nullability_witness :
    ∃ ft, (QuicktypeService.primFieldLines "dynamic?" "x").1 =
        QuicktypeService.mkFieldDecl ft "x" ∧ endsQ ft = true :=
  C6_nullability "Model" "x" JsonValue.null []
    (QuicktypeService.primFieldLines "dynamic?" "x").1
    (QuicktypeService.primFieldLines "dynamic?" "x").2.1
    (QuicktypeService.primFieldLines "dynamic?" "x").2.2.1
    (QuicktypeService.primFieldLines "dynamic?" "x").2.2.2 [] rfl

/-- C8: a string-valued field resolves to `DateTime?` exactly when the key
contains one of the hint substrings `date`, `time`, `created`, `updated`
(case-insensitively, via the lower-cased key) and the value has the
ISO-8601-like shape (both `T` and `Z`, or both `-` and `:`); otherwise it
resolves to `String?`.  In particular `createdAt`/`2023-10-15T08:30:00Z`
resolves to DateTime and `createdAt`/`hello` to String. -/
theorem C8_datetime_heuristic (cn k s : String) (tbl : Table) :
    QuicktypeService.genField cn k (JsonValue.str s) tbl =
      Except.ok ((if QuicktypeService.dtCond k s then
          QuicktypeService.dateTimeFieldLines k
        else QuicktypeService.primFieldLines "String?" k), tbl) ∧
    (QuicktypeService.dateTimeFieldLines k).1 =
      QuicktypeService.mkFieldDecl "DateTime?" k ∧
    (QuicktypeService.primFieldLines "String?" k).1 =
      QuicktypeService.mkFieldDecl "String?" k ∧
    QuicktypeService.dtCond "createdAt" "2023-10-15T08:30:00Z" = true ∧
    QuicktypeService.dtCond "createdAt" "hello" = false := by
  refine ⟨?_, rfl, rfl, by decide, by decide⟩
  by_cases hdt : QuicktypeService.dtCond k s = true
  · simp [QuicktypeService.genField, QuicktypeService.get_dart_type, hdt]
  · simp [QuicktypeService.genField, QuicktypeService.get_dart_type, hdt]

/-- C9: the "complex nested structure" detection has no effect on the
output — in the service the two branches make the same engine call, and in
the tool wrapper the `is_nested` flag is computed but never used, so both
the dispatch and the whole tool agree with their detection-free variants on
every input. -/
theorem C9_detection_no_effect
    (engine : JsonValue → String → Except String String)
    (loads : String → Except String JsonValue)
    (v : JsonValue) (json_input class_name language : String) :
    QuicktypeService.dispatch engine v class_name language =
      QuicktypeService.dispatchNoDetection engine v class_name language ∧
    MCPTools.generate_model loads json_input class_name language =
      MCPTools.generate_model_noDetection loads json_input class_name
        language := by
  have hdisp : ∀ (e2 : JsonValue → String → Except String String)
      (v2 : JsonValue) (cn lg : String),
      QuicktypeService.dispatch e2 v2 cn lg =
        QuicktypeService.dispatchNoDetection e2 v2 cn lg := by
    intro e2 v2 cn lg
    unfold QuicktypeService.dispatch QuicktypeService.dispatchNoDetection
    by_cases hc : QuicktypeService.isComplexNested v2 = true <;> simp [hc]
  refine ⟨hdisp engine v class_name language, ?_⟩
  unfold MCPTools.generate_model MCPTools.generate_model_noDetection
  cases hp : loads json_input with
  | error e => rfl
  | ok v2 =>
    dsimp only
    unfold QuicktypeService.generate_model_on_value
    cases v2 with
    | str s =>
      unfold QuicktypeService.generate_model QuicktypeService.generate_model_with
      dsimp only
      cases hq : loads s with
      | error e2 => rfl
      | ok v3 => exact hdisp _ v3 _ _
    | null => exact hdisp _ _ _ _
    | bool b => exact hdisp _ _ _ _
    | int n => exact hdisp _ _ _ _
    | float x => exact hdisp _ _ _ _
    | arr items => exact hdisp _ _ _ _
    | obj fields => exact hdisp _ _ _ _
